import Mathlib

/-!
Shallow embedding of `book_shelf.py` (BookShelf): the two metadata parsers
(`parse_epub_metadata`, `parse_fb2_metadata`), the per-file dispatcher
(`process_file`), and the Python string/base64 helpers their behaviour
depends on. Records mirror the Python metadata dictionaries; `Option` models
a key that a parser may leave out (the FB2 parser builds its dictionary
without the "Файл" key: that line is commented out in the source).
-/

namespace BookShelf

/-- Model of `os.path.basename`: everything after the last `/`. -/
def basename (p : String) : String :=
  ⟨(p.toList.reverse.takeWhile (fun c => c ≠ '/')).reverse⟩

/-- The whitespace characters Python `str.strip()` removes. -/
def pyWhitespace : List Char :=
  [' ', '\t', '\n', '\r', '\x0B', '\x0C']

/-- Lowercase one character, ASCII range only (the inputs the source
lowercases are file names and item identifiers). -/
def charLower (c : Char) : Char :=
  if 65 ≤ c.toNat ∧ c.toNat ≤ 90 then Char.ofNat (c.toNat + 32) else c

/-- Model of Python `s.lower()`. -/
def pyLower (s : String) : String :=
  ⟨s.toList.map charLower⟩

/-- Model of Python `s.endswith(suffix)`. -/
def pyEndsWith (s suffix : String) : Bool :=
  suffix.toList.isSuffixOf s.toList

/-- Model of Python `s.startswith(pre)`. -/
def pyStartsWith (s pre : String) : Bool :=
  pre.toList.isPrefixOf s.toList

/-- Model of the Python expression `x or d` for a string `x`:
`d` when `x` is the empty string (falsy), otherwise `x`. -/
def strOr (x d : String) : String :=
  if x = "" then d else x

/-- Model of the Python expression `x or d` where `x : str | None`
(e.g. `element.text`): `d` when `x` is `None` or empty, otherwise `x`. -/
def pyOr (x : Option String) (d : String) : String :=
  match x with
  | none => d
  | some s => if s = "" then d else s

/-- Model of how an f-string renders a `str | None` value:
`None` prints as the four characters `None`. -/
def fstr (x : Option String) : String :=
  match x with
  | none => "None"
  | some s => s

/-- Model of Python string join: `sep.join(list)`. -/
def pyJoin (sep : String) : List String → String
  | [] => ""
  | [x] => x
  | x :: y :: rest => x ++ sep ++ pyJoin sep (y :: rest)

/-- Model of Python `s.strip(' ()')`: remove the given characters from both
ends of the string. -/
def stripChars (s : String) (cs : List Char) : String :=
  let l := s.toList.dropWhile (fun c => cs.contains c)
  ⟨(l.reverse.dropWhile (fun c => cs.contains c)).reverse⟩

/-- Model of Python `s.strip()` with no argument: remove whitespace from
both ends. -/
def pyTrim (s : String) : String :=
  stripChars s pyWhitespace

/-- Value of a character in the standard base64 alphabet, `none` for
characters outside it (including the padding character `=`). -/
def b64charVal (c : Char) : Option Nat :=
  if 'A' ≤ c ∧ c ≤ 'Z' then some (c.toNat - 65)
  else if 'a' ≤ c ∧ c ≤ 'z' then some (c.toNat - 97 + 26)
  else if '0' ≤ c ∧ c ≤ '9' then some (c.toNat - 48 + 52)
  else if c = '+' then some 62
  else if c = '/' then some 63
  else none

/-- Decode a pre-filtered base64 character stream in groups of four,
with `=` padding allowed only at the very end; `none` models
`binascii.Error` (a leftover group of 1–3 characters, or misplaced
padding). -/
def decodeGroups : List Char → Option (List Nat)
  | [] => some []
  | a :: b :: c :: d :: rest =>
    match b64charVal a, b64charVal b with
    | some va, some vb =>
      if c = '=' then
        if d = '=' ∧ rest = [] then some [va * 4 + vb / 16] else none
      else
        match b64charVal c with
        | some vc =>
          if d = '=' then
            if rest = [] then some [va * 4 + vb / 16, (vb % 16) * 16 + vc / 4]
            else none
          else
            match b64charVal d with
            | some vd =>
              (decodeGroups rest).map
                (fun r => (va * 4 + vb / 16) :: ((vb % 16) * 16 + vc / 4) ::
                          ((vc % 4) * 64 + vd) :: r)
            | none => none
        | none => none
    | _, _ => none
  | _ => none

/-- Model of `base64.b64decode` (non-strict, as called in the source):
characters outside the alphabet and padding are discarded, the remaining
stream is decoded in groups of four; `none` models a raised
`binascii.Error` (corrupt payload). -/
def b64decode (s : String) : Option (List Nat) :=
  decodeGroups (s.toList.filter (fun c => (b64charVal c).isSome ∨ c = '='))

/-- The metadata dictionary both parsers build. Field names translate the
Russian dictionary keys of the source: `cover_path` = "Обложка",
`title` = "Название", `author` = "Автор", `series` = "Серия",
`genre` = "Жанр", `description` = "Описание", `source_filename` = "Файл".
`source_filename` is an `Option` because the FB2 parser never adds the
key (the line is commented out in the source). -/
structure Record where
  cover_path : Option String
  title : String
  author : String
  series : String
  genre : String
  description : String
  source_filename : Option String
  deriving Repr, DecidableEq

/-- A file written by a parser: destination path and raw bytes. -/
abbrev Write := String × List Nat

/-! ### FB2 document model

An XML element's text is `Option String` (`None` for an empty element, as
in ElementTree). A child element that may be absent is wrapped in a
further `Option`. -/

/-- An `<author>` element: optional `<first-name>`/`<last-name>` children,
each carrying an optional text. -/
structure FbAuthor where
  first_name : Option (Option String)
  last_name : Option (Option String)
  deriving Repr, DecidableEq

/-- A `<sequence>` element: `name` and `number` attributes, absent
attributes modelled as `none` (ElementTree `get` returns `None`). -/
structure FbSequence where
  name : Option String
  number : Option String
  deriving Repr, DecidableEq

/-- The `<title-info>` element. `annotation = some s` models a present
`<annotation>` node whose plain-text rendering
(`ET.tostring(..., method='text')`) is `s`; `none` models an absent node. -/
structure FbTitleInfo where
  book_title : Option (Option String)
  authors : List FbAuthor
  sequence : Option FbSequence
  genres : List (Option String)
  annotation : Option String
  deriving Repr, DecidableEq

/-- A `<binary>` element: `id` attribute and text payload. -/
structure FbBinary where
  id : Option String
  text : Option String
  deriving Repr, DecidableEq

/-- A well-formed FB2 document as the parser sees it: the
`description/title-info` node (if present) and the `<binary>` nodes. -/
structure Fb2Doc where
  title_info : Option FbTitleInfo
  binaries : List FbBinary
  deriving Repr, DecidableEq

/-- Source helper `get_text`: `element.text if element is not None
else ""`. The result is `str | None` since `element.text` may be `None`. -/
def get_text (e : Option (Option String)) : Option String :=
  match e with
  | none => some ""
  | some t => t

/-- One author's name fragment:
`f"{get_text(first-name)} {get_text(last-name)}".strip()`. -/
def authorFragment (a : FbAuthor) : String :=
  pyTrim (fstr (get_text a.first_name) ++ " " ++ fstr (get_text a.last_name))

/-- The series field: `(f"{seq.get('name','')} (№{seq.get('number','')})")
.strip(' ()')` when a `<sequence>` node exists and its `name` attribute is
truthy, else `""`. -/
def seriesField (seq : Option FbSequence) : String :=
  match seq with
  | none => ""
  | some s =>
    match s.name with
    | none => ""
    | some n =>
      if n = "" then ""
      else stripChars (n ++ " (№" ++ (s.number.getD "") ++ ")") [' ', '(', ')']

/-- Predicate of the cover loop: `binary.get('id', '').startswith('cover')`. -/
def coverBinMatch (b : FbBinary) : Bool :=
  pyStartsWith (b.id.getD "") "cover"

/-- The body of `parse_fb2_metadata` before its `try/except` wrapper:
build the metadata dictionary from `title-info`, then decode the first
`<binary>` whose id starts with `cover` (the loop breaks after the first
match). `Except.error` models a raised exception: the explicit
`ValueError` for a missing `title-info`, a `TypeError` from
`b64decode(None)`, or a `binascii.Error` from a corrupt payload. -/
def parse_fb2_core (fb2_path : String) (doc : Fb2Doc) :
    Except String (Record × List Write) :=
  match doc.title_info with
  | none => .error "Не найден title-info"
  | some ti =>
    let metadata : Record :=
      { cover_path := none
        title := pyOr (get_text ti.book_title) "Без названия"
        author := strOr (pyJoin ", " (ti.authors.map authorFragment)) "Неизвестен"
        series := seriesField ti.sequence
        genre := strOr (pyJoin ", " (ti.genres.filterMap
          (fun t => match t with
            | none => none
            | some s => if s = "" then none else some s))) ""
        description := match ti.annotation with
          | some t => pyTrim t
          | none => "Нет описания"
        source_filename := none }
    match doc.binaries.find? coverBinMatch with
    | none => .ok (metadata, [])
    | some b =>
      match b.text with
      | none => .error "TypeError"
      | some payload =>
        match b64decode payload with
        | none => .error "binascii.Error"
        | some bytes =>
          let cover_path := "covers/cover_" ++ basename fb2_path ++ ".jpg"
          .ok ({ metadata with cover_path := some cover_path },
               [(cover_path, bytes)])

/-- Wrapper `parse_fb2_metadata`: the `try/except` wrapper turns any raised
exception into a logged message and `None`. -/
def parse_fb2_metadata (fb2_path : String) (doc : Fb2Doc) :
    Option (Record × List Write) :=
  (parse_fb2_core fb2_path doc).toOption

/-! ### EPUB book model -/

/-- An item of the EPUB container as `book.get_items()` yields it:
whether it is an `epub.EpubImage` instance, whether it has a `get_name`
attribute and what that returns, and its `get_content()` bytes. -/
structure EpubItem where
  isEpubImage : Bool
  hasGetName : Bool
  name : String
  content : List Nat
  deriving Repr, DecidableEq

/-- An EPUB book as `ebooklib` exposes it: `dc f` is the list of values
`v` from `book.get_metadata('DC', f) = [(v, attrs), ...]`, and `items`
is `book.get_items()`. -/
structure EpubBook where
  dc : String → List String
  items : List EpubItem

/-- Model of Python `needle in hay` on strings: some suffix of `hay`
starts with `needle`. -/
def pyInStr (needle hay : String) : Bool :=
  (hay.toList.tails).any (fun t => needle.toList.isPrefixOf t)

/-- Truthiness of the stray two-element Python tuple
`(hasattr(item, 'get_name') and 'cover' in item.get_name().lower(), None)`
in the source's cover predicate: a non-empty tuple is always truthy,
whatever its components hold. -/
def pyTupleTruthy (_fst : Bool) (_snd : Option Unit) : Bool :=
  true

/-- The cover predicate exactly as written in the source:
`isinstance(item, epub.EpubImage) or (hasattr(item, 'get_name') and
'cover' in item.get_name().lower(), None)`. Because the second disjunct
is a tuple, the predicate is truthy for every item. -/
def coverPredSource (item : EpubItem) : Bool :=
  item.isEpubImage ||
    pyTupleTruthy (item.hasGetName && (pyInStr "cover" (pyLower item.name)))
      none

/-- Modelled from the spec: the intended cover predicate of §4.2/§9 —
an item typed as an image, or one whose name contains `cover`
(case-insensitive). The source's malformed predicate (see
`coverPredSource`) was meant to express this. -/
def coverPredIntended (item : EpubItem) : Bool :=
  item.isEpubImage ||
    (item.hasGetName && (pyInStr "cover" (pyLower item.name)))

/-- Source helper `get_metadata`:
`book.get_metadata('DC', field)[0][0] if book.get_metadata('DC', field)
else ""`. -/
def epubGetMeta (book : EpubBook) (field : String) : String :=
  match book.dc field with
  | [] => ""
  | v :: _ => v

/-- The body of `parse_epub_metadata` before its `try/except` wrapper.
The cover search is `next(...)` WITHOUT a default (the intended `None`
default sits inside the stray tuple), so an empty item list raises
`StopIteration`; otherwise the first item matches (`coverPredSource` is
always true), the mis-indented `with open` block runs, and that item's
bytes are written as the cover. -/
def parse_epub_core (epub_path : String) (book : EpubBook) :
    Except String (Record × List Write) :=
  let metadata : Record :=
    { cover_path := none
      title := strOr (epubGetMeta book "title") "Без названия"
      author := strOr (pyJoin ", " (book.dc "creator")) "Неизвестен"
      series := strOr (epubGetMeta book "series") ""
      genre := strOr (pyJoin ", " (book.dc "subject")) ""
      description := strOr (epubGetMeta book "description") "Нет описания"
      source_filename := some (basename epub_path) }
  match book.items.find? coverPredSource with
  | none => .error "StopIteration"
  | some item =>
    let cover_path := "covers/cover_" ++ basename epub_path ++ ".jpg"
    .ok ({ metadata with cover_path := some cover_path },
         [(cover_path, item.content)])

/-- Wrapper `parse_epub_metadata`: the `try/except` wrapper turns any raised
exception into a logged message and `None`. -/
def parse_epub_metadata (epub_path : String) (book : EpubBook) :
    Option (Record × List Write) :=
  (parse_epub_core epub_path book).toOption

/-! ### Per-file dispatcher -/

/-- What the filesystem holds at a path: an EPUB container, an FB2
document, a ZIP archive (its member names paired with their contents),
or something neither parser can read. -/
inductive FsEntry where
  | epubFile (book : EpubBook)
  | fb2File (doc : Fb2Doc)
  | zipFile (entries : List (String × FsEntry))
  | unreadable

/-- A filesystem: contents by path. -/
abbrev Fs := String → FsEntry

/-- Parse one file extracted from a ZIP archive (`process_zip` extracts
each matching member to a temp directory under its base name, parses it,
and keeps the record when parsing succeeded). -/
def parseZipMember (ext : String) (entry : String × FsEntry) :
    Option Record :=
  match ext, entry.2 with
  | ".epub", .epubFile book =>
    (parse_epub_metadata (basename entry.1) book).map Prod.fst
  | ".fb2", .fb2File doc =>
    (parse_fb2_metadata (basename entry.1) doc).map Prod.fst
  | _, _ => none

/-- Model of `process_zip`: for each extension `.epub` then `.fb2`, extract the
archive members whose (lowercased) name ends with it and parse each;
an unreadable archive yields no extracted files at all. -/
def process_zip (zip_path : String) (fs : Fs) : List Record :=
  match fs zip_path with
  | .zipFile entries =>
    ([".epub", ".fb2"].map (fun ext =>
      (entries.filter (fun e => pyEndsWith (pyLower e.1) ext)).filterMap
        (parseZipMember ext))).flatten
  | _ => []

/-- The extension dispatch of `process_file`, in source order. -/
inductive Dispatch where
  | zipBranch
  | epubBranch
  | fb2Branch
  | unsupported
  deriving Repr, DecidableEq

/-- Which branch `process_file` takes for a path:
`file_path.lower().endswith(...)` checks in source order, with a bare
`return []` fall-through. -/
def dispatch (file_path : String) : Dispatch :=
  if pyEndsWith (pyLower file_path) ".zip" then .zipBranch
  else if pyEndsWith (pyLower file_path) ".epub" then .epubBranch
  else if pyEndsWith (pyLower file_path) ".fb2" then .fb2Branch
  else .unsupported

/-- Model of `process_file`: dispatch on the lowercased extension; a parser's
`None` becomes the empty list, a record becomes a singleton, and an
unsupported extension returns `[]` without touching the file. -/
def process_file (file_path : String) (fs : Fs) : List Record :=
  match dispatch file_path with
  | .zipBranch => process_zip file_path fs
  | .epubBranch =>
    match fs file_path with
    | .epubFile book =>
      match parse_epub_metadata file_path book with
      | some (r, _) => [r]
      | none => []
    | _ => []
  | .fb2Branch =>
    match fs file_path with
    | .fb2File doc =>
      match parse_fb2_metadata file_path doc with
      | some (r, _) => [r]
      | none => []
    | _ => []
  | .unsupported => []

/-! ### Concrete inputs used by the end-to-end statements -/

/-- The `title-info` of the spec's end-to-end example: title `Dune`, one
author Frank Herbert, no sequence, genres `sci-fi` and `classic`,
annotation `A desert planet.`. -/
def duneTI : FbTitleInfo :=
  { book_title := some (some "Dune")
    authors := [{ first_name := some (some "Frank")
                  last_name := some (some "Herbert") }]
    sequence := none
    genres := [some "sci-fi", some "classic"]
    annotation := some "A desert planet." }

/-- The flat-XML document of the spec's end-to-end example. -/
def duneDoc : Fb2Doc :=
  { title_info := some duneTI
    binaries := [] }

/-- The record the FB2 parser produces for `duneDoc`. -/
def duneRec : Record :=
  { cover_path := none
    title := "Dune"
    author := "Frank Herbert"
    series := ""
    genre := "sci-fi, classic"
    description := "A desert planet."
    source_filename := none }

/-- An EPUB book whose container declares zero items. -/
def emptyItemsBook : EpubBook :=
  { dc := fun f =>
      if f = "title" then ["Dune"]
      else if f = "creator" then ["Frank Herbert"]
      else []
    items := [] }

/-- An ordinary EPUB book: title and creator metadata and one image item. -/
def sampleEpubBook : EpubBook :=
  { dc := fun f =>
      if f = "title" then ["Sample Book"]
      else if f = "creator" then ["Ada Lovelace"]
      else []
    items := [{ isEpubImage := true
                hasGetName := true
                name := "cover.jpg"
                content := [1, 2, 3] }] }

/-- The record the EPUB parser produces for `sampleEpubBook` at path
`shelf/book.epub`. -/
def sampleEpubRec : Record :=
  { cover_path := some "covers/cover_book.epub.jpg"
    title := "Sample Book"
    author := "Ada Lovelace"
    series := ""
    genre := ""
    description := "Нет описания"
    source_filename := some "book.epub" }

/-- A flat-XML document whose `<annotation>` node is present but renders
to the empty string. -/
def blankAnnotationDoc : Fb2Doc :=
  { title_info := some
      { book_title := some (some "Dune")
        authors := [{ first_name := some (some "Frank")
                      last_name := some (some "Herbert") }]
        sequence := none
        genres := []
        annotation := some "" }
    binaries := [] }

/-- A `title-info` with a `<sequence>` node whose `name` attribute is the
empty string (and a number attribute of `3`). -/
def emptySeqNameTI : FbTitleInfo :=
  { book_title := some (some "Dune")
    authors := []
    sequence := some { name := some "", number := some "3" }
    genres := []
    annotation := none }

/-- Document wrapping `emptySeqNameTI`. -/
def emptySeqNameDoc : Fb2Doc :=
  { title_info := some emptySeqNameTI
    binaries := [] }

/-- The record the FB2 parser produces for `emptySeqNameDoc`. -/
def emptySeqNameRec : Record :=
  { cover_path := none
    title := "Dune"
    author := "Неизвестен"
    series := ""
    genre := ""
    description := "Нет описания"
    source_filename := none }

/-- A `title-info` with exactly one `<author>` node that has neither a
`<first-name>` nor a `<last-name>` child. -/
def singleBlankAuthorTI : FbTitleInfo :=
  { book_title := some (some "X")
    authors := [{ first_name := none, last_name := none }]
    sequence := none
    genres := []
    annotation := none }

/-- Document wrapping `singleBlankAuthorTI`. -/
def singleBlankAuthorDoc : Fb2Doc :=
  { title_info := some singleBlankAuthorTI
    binaries := [] }

/-- A `title-info` with two fully named authors. -/
def twoAuthorTI : FbTitleInfo :=
  { book_title := some (some "Dune")
    authors := [{ first_name := some (some "Frank")
                  last_name := some (some "Herbert") },
                { first_name := some (some "Ada")
                  last_name := some (some "Lovelace") }]
    sequence := none
    genres := []
    annotation := none }

/-- Document wrapping `twoAuthorTI`. -/
def twoAuthorDoc : Fb2Doc :=
  { title_info := some twoAuthorTI
    binaries := [] }

/-- The record the FB2 parser produces for `twoAuthorDoc`. -/
def twoAuthorRec : Record :=
  { cover_path := none
    title := "Dune"
    author := "Frank Herbert, Ada Lovelace"
    series := ""
    genre := ""
    description := "Нет описания"
    source_filename := none }

/-- A minimal `title-info` used by the binary-decoding inputs. -/
def minimalTI : FbTitleInfo :=
  { book_title := some (some "T")
    authors := []
    sequence := none
    genres := []
    annotation := none }

/-- A `<binary>` node with a decodable payload (`QUJD` = bytes of `ABC`). -/
def goodCoverBin : FbBinary :=
  { id := some "cover1", text := some "QUJD" }

/-- A `<binary>` node whose payload is corrupt base64: after discarding
non-alphabet characters one data character remains, which
`base64.b64decode` rejects. -/
def corruptCoverBin : FbBinary :=
  { id := some "cover2", text := some "!!!A" }

/-- A document with a decodable cover binary followed by a corrupt one. -/
def twoCoverDoc : Fb2Doc :=
  { title_info := some minimalTI
    binaries := [goodCoverBin, corruptCoverBin] }

/-- A document whose only (hence first) cover binary is corrupt. -/
def corruptFirstDoc : Fb2Doc :=
  { title_info := some minimalTI
    binaries := [{ id := some "cover", text := some "!!!A" }] }

/-- A filesystem with nothing readable on it. -/
def emptyFs : Fs :=
  fun _ => FsEntry.unreadable

/-- Two parse results that agree field for field, except possibly in the
exact cover location: same failure, or records equal in every field but
`cover_path` with byte-identical written cover content. -/
def sameParseOutcome (x y : Option (Record × List Write)) : Prop :=
  match x, y with
  | none, none => True
  | some (r1, w1), some (r2, w2) =>
    r1.title = r2.title ∧ r1.author = r2.author ∧ r1.series = r2.series ∧
    r1.genre = r2.genre ∧ r1.description = r2.description ∧
    r1.source_filename = r2.source_filename ∧
    w1.map Prod.snd = w2.map Prod.snd
  | _, _ => False

end BookShelf

namespace BookShelf

/-! ### Helper lemmas -/

theorem strOr_ne_empty (x d : String) (hd : d ≠ "") : strOr x d ≠ "" := by
  unfold strOr
  split
  · exact hd
  · assumption

theorem pyOr_ne_empty (x : Option String) (d : String) (hd : d ≠ "") :
    pyOr x d ≠ "" := by
  unfold pyOr
  cases x with
  | none => exact hd
  | some s =>
    dsimp only
    split
    · exact hd
    · assumption

theorem pyJoin_two_ne_empty (sep : String) (hsep : sep.data ≠ [])
    (a b : String) (t : List String) : pyJoin sep (a :: b :: t) ≠ "" := by
  show a ++ sep ++ pyJoin sep (b :: t) ≠ ""
  intro h
  have hdata : (a ++ sep ++ pyJoin sep (b :: t)).data = [] := by
    rw [h]
  simp only [String.data_append, List.append_eq_nil] at hdata
  exact hsep hdata.1.2

/-- The first character of `stripChars s cs` (if any) is not one of the
stripped characters. -/
theorem stripChars_head?_not (s : String) (cs : List Char) :
    ∀ c ∈ (stripChars s cs).toList.head?, cs.contains c = false := by
  intro c hc
  have hres : (stripChars s cs).toList
      = List.rdropWhile (fun x => cs.contains x)
          (s.toList.dropWhile (fun x => cs.contains x)) := rfl
  rw [hres] at hc
  obtain ⟨t, ht⟩ := List.rdropWhile_prefix (fun x => cs.contains x)
      (s.toList.dropWhile (fun x => cs.contains x))
  rcases hpre : List.rdropWhile (fun x => cs.contains x)
      (s.toList.dropWhile (fun x => cs.contains x)) with _ | ⟨a, rest⟩
  · rw [hpre] at hc
    simp at hc
  · rw [hpre] at hc
    simp only [List.head?_cons, Option.mem_def, Option.some.injEq] at hc
    rw [hpre] at ht
    have hl2 : s.toList.dropWhile (fun x => cs.contains x) = a :: (rest ++ t) := by
      rw [← ht]
      rfl
    have hne : s.toList.dropWhile (fun x => cs.contains x) ≠ [] := by
      rw [hl2]
      simp
    have hnot := List.head_dropWhile_not (fun x => cs.contains x) s.toList hne
    have hhead : (s.toList.dropWhile (fun x => cs.contains x)).head hne = a := by
      have h1 : (s.toList.dropWhile (fun x => cs.contains x)).head? = some a := by
        rw [hl2]
        rfl
      have h2 := List.head?_eq_head hne
      rw [h1] at h2
      exact (Option.some.inj h2).symm
    rw [hhead] at hnot
    rw [← hc]
    simpa using hnot

/-- Field values of any record the FB2 parser core returns. -/
theorem parse_fb2_core_ok_fields (path : String) (doc : Fb2Doc)
    (ti : FbTitleInfo) (r : Record) (w : List Write)
    (hti : doc.title_info = some ti)
    (hok : parse_fb2_core path doc = .ok (r, w)) :
    r.title = pyOr (get_text ti.book_title) "Без названия" ∧
    r.author = strOr (pyJoin ", " (ti.authors.map authorFragment)) "Неизвестен" ∧
    r.series = seriesField ti.sequence ∧
    r.genre = strOr (pyJoin ", " (ti.genres.filterMap
      (fun t => match t with
        | none => none
        | some s => if s = "" then none else some s))) "" ∧
    r.description = (match ti.annotation with
      | some t => pyTrim t
      | none => "Нет описания") ∧
    r.source_filename = none := by
  unfold parse_fb2_core at hok
  rw [hti] at hok
  dsimp only at hok
  split at hok
  · simp only [Except.ok.injEq, Prod.mk.injEq] at hok
    obtain ⟨hr, -⟩ := hok
    subst hr
    exact ⟨rfl, rfl, rfl, rfl, rfl, rfl⟩
  · split at hok
    · cases hok
    · split at hok
      · cases hok
      · simp only [Except.ok.injEq, Prod.mk.injEq] at hok
        obtain ⟨hr, -⟩ := hok
        subst hr
        exact ⟨rfl, rfl, rfl, rfl, rfl, rfl⟩

/-- A successful FB2 parse implies the document has a `title-info` node. -/
theorem parse_fb2_core_ok_title_info (path : String) (doc : Fb2Doc)
    (r : Record) (w : List Write)
    (hok : parse_fb2_core path doc = .ok (r, w)) :
    ∃ ti, doc.title_info = some ti := by
  rcases hti : doc.title_info with _ | ti
  · unfold parse_fb2_core at hok
    rw [hti] at hok
    cases hok
  · exact ⟨ti, rfl⟩

/-- Field values of any record the EPUB parser core returns. -/
theorem parse_epub_core_ok_fields (path : String) (book : EpubBook)
    (r : Record) (w : List Write)
    (hok : parse_epub_core path book = .ok (r, w)) :
    r.title = strOr (epubGetMeta book "title") "Без названия" ∧
    r.author = strOr (pyJoin ", " (book.dc "creator")) "Неизвестен" ∧
    r.series = strOr (epubGetMeta book "series") "" ∧
    r.genre = strOr (pyJoin ", " (book.dc "subject")) "" ∧
    r.description = strOr (epubGetMeta book "description") "Нет описания" ∧
    r.source_filename = some (basename path) := by
  unfold parse_epub_core at hok
  dsimp only at hok
  split at hok
  · cases hok
  · simp only [Except.ok.injEq, Prod.mk.injEq] at hok
    obtain ⟨hr, -⟩ := hok
    subst hr
    exact ⟨rfl, rfl, rfl, rfl, rfl, rfl⟩

/-- C4: the flat-XML parser maps the `Dune` example document to the
record with title `Dune`, author `Frank Herbert`, empty series, genre
`sci-fi, classic` and description `A desert planet.` (and no cover,
since the document has no binary nodes). -/
theorem c4_dune_end_to_end :
    parse_fb2_core "dune.fb2" duneDoc = .ok
      ({ cover_path := none
         title := "Dune"
         author := "Frank Herbert"
         series := ""
         genre := "sci-fi, classic"
         description := "A desert planet."
         source_filename := none }, []) := by
  rfl

/-- C1: for an EPUB container with no item matching the (intended) cover
predicate — here, no items at all — the parser does NOT return a record
with an absent cover: the `next(...)` call raises `StopIteration`
(its intended `None` default sits inside the stray tuple) and the
blanket `except` turns the whole parse into a failure (`None`). -/
theorem c1_no_cover_item_is_failure :
    emptyItemsBook.items.filter coverPredIntended = [] ∧
    parse_epub_core "dune.epub" emptyItemsBook = .error "StopIteration" ∧
    parse_epub_metadata "dune.epub" emptyItemsBook = none :=
  ⟨rfl, rfl, rfl⟩

/-- C2 (amended): every record either parser returns has a non-empty
title and a non-empty author; the description is non-empty for the EPUB
parser always, and for the FB2 parser whenever the annotation node, if
present, does not render to blank text (a present-but-blank annotation
yields an empty description — no placeholder is substituted there). -/
theorem c2_records_have_nonempty_fields :
    (∀ path book r w, parse_epub_core path book = Except.ok (r, w) →
      r.title ≠ "" ∧ r.author ≠ "" ∧ r.description ≠ "") ∧
    (∀ path doc ti r w, doc.title_info = some ti →
      parse_fb2_core path doc = Except.ok (r, w) →
      r.title ≠ "" ∧ r.author ≠ "" ∧
      ((∀ t, ti.annotation = some t → pyTrim t ≠ "") → r.description ≠ "")) := by
  constructor
  · intro path book r w hok
    obtain ⟨ht, ha, -, -, hd, -⟩ := parse_epub_core_ok_fields path book r w hok
    refine ⟨?_, ?_, ?_⟩
    · rw [ht]
      exact strOr_ne_empty _ _ (by decide)
    · rw [ha]
      exact strOr_ne_empty _ _ (by decide)
    · rw [hd]
      exact strOr_ne_empty _ _ (by decide)
  · intro path doc ti r w hti hok
    obtain ⟨ht, ha, -, -, hd, -⟩ := parse_fb2_core_ok_fields path doc ti r w hti hok
    refine ⟨?_, ?_, ?_⟩
    · rw [ht]
      exact pyOr_ne_empty _ _ (by decide)
    · rw [ha]
      exact strOr_ne_empty _ _ (by decide)
    · intro hann
      rw [hd]
      cases hA : ti.annotation with
      | none => decide
      | some t =>
        dsimp only
        exact hann t hA

/-- C2 witness: the amended statement instantiated at `sampleEpubBook`
and `duneDoc`. -/
theorem c2_witness :
    (sampleEpubRec.title ≠ "" ∧ sampleEpubRec.author ≠ "" ∧
      sampleEpubRec.description ≠ "") ∧
    (duneRec.title ≠ "" ∧ duneRec.author ≠ "" ∧ duneRec.description ≠ "") :=
  ⟨c2_records_have_nonempty_fields.1 "shelf/book.epub" sampleEpubBook
      sampleEpubRec [("covers/cover_book.epub.jpg", [1, 2, 3])] rfl,
    (fun h => ⟨h.1, h.2.1, h.2.2 (fun t htt => by
        have : some "A desert planet." = some t := htt
        cases this
        decide)⟩)
      (c2_records_have_nonempty_fields.2 "dune.fb2" duneDoc duneTI duneRec []
        rfl rfl)⟩

/-- C2 counterexample: a present `<annotation>` whose rendering is blank
produces a successful record with an EMPTY description, violating the
claim that title/author/description are always non-empty with
placeholders substituted for blank values. -/
theorem c2_counterexample_blank_annotation :
    blankAnnotationDoc.title_info.map FbTitleInfo.annotation
      = some (some "") ∧
    (parse_fb2_metadata "b.fb2" blankAnnotationDoc).map
      (fun p => p.1.description) = some "" :=
  ⟨rfl, rfl⟩

/-- C3 (amended): every record of the EPUB parser carries
`source_filename` = base name of the parsed file, but the FB2 parser
omits the field entirely (the `"Файл"` line of its dictionary is
commented out in the source). -/
theorem c3_source_filename_fields :
    (∀ path book r w, parse_epub_core path book = Except.ok (r, w) →
      r.source_filename = some (basename path)) ∧
    (∀ path doc r w, parse_fb2_core path doc = Except.ok (r, w) →
      r.source_filename = none) := by
  constructor
  · intro path book r w hok
    exact (parse_epub_core_ok_fields path book r w hok).2.2.2.2.2
  · intro path doc r w hok
    obtain ⟨ti, hti⟩ := parse_fb2_core_ok_title_info path doc r w hok
    exact (parse_fb2_core_ok_fields path doc ti r w hti hok).2.2.2.2.2

/-- C3 witness: the amended statement instantiated at `sampleEpubBook`
(path `shelf/book.epub`) and `duneDoc`. -/
theorem c3_witness :
    sampleEpubRec.source_filename = some (basename "shelf/book.epub") ∧
    duneRec.source_filename = none :=
  ⟨c3_source_filename_fields.1 "shelf/book.epub" sampleEpubBook sampleEpubRec
      [("covers/cover_book.epub.jpg", [1, 2, 3])] rfl,
    c3_source_filename_fields.2 "dune.fb2" duneDoc duneRec [] rfl⟩

/-- C3 counterexample: the record for the `Dune` flat-XML document has no
`source_filename` field, contradicting the claim that records from
either parser contain it. -/
theorem c3_counterexample_fb2_lacks_source_filename :
    (parse_fb2_metadata "dune.fb2" duneDoc).map
      (fun p => p.1.source_filename) = some none :=
  rfl

/-- C5: a flat-XML document lacking the `title-info` node makes
`parse_fb2_metadata` fail: the core raises the missing-section error and
the wrapper returns `None`, never a record. -/
theorem c5_missing_title_info_is_failure (path : String) (doc : Fb2Doc)
    (h : doc.title_info = none) :
    parse_fb2_core path doc = Except.error "Не найден title-info" ∧
    parse_fb2_metadata path doc = none := by
  have hcore : parse_fb2_core path doc = Except.error "Не найден title-info" := by
    unfold parse_fb2_core
    rw [h]
  refine ⟨hcore, ?_⟩
  unfold parse_fb2_metadata
  rw [hcore]
  rfl

/-- The series field is either empty or starts with a character that is
not a space or parenthesis (Python `strip(' ()')` removed those). -/
theorem seriesField_cases (seq : Option FbSequence) :
    seriesField seq = "" ∨
    ∀ c ∈ (seriesField seq).toList.head?, ([' ', '(', ')'] : List Char).contains c = false := by
  rcases seq with _ | sq
  · left
    rfl
  · rcases hname : sq.name with _ | nm
    · left
      unfold seriesField
      dsimp only
      rw [hname]
    · by_cases hnm : nm = ""
      · left
        unfold seriesField
        dsimp only
        rw [hname]
        dsimp only
        rw [if_pos hnm]
      · right
        unfold seriesField
        dsimp only
        rw [hname]
        dsimp only
        rw [if_neg hnm]
        exact stripChars_head?_not _ _

/-- The decoration-only string `"(№" ++ n ++ ")"` begins with `(`. -/
theorem decoration_head (n : String) :
    ("(№" ++ n ++ ")").toList.head? = some '(' := by
  show ((("(№" ++ n) ++ ")").data).head? = some '('
  rw [String.data_append, String.data_append]
  rfl

/-- C6: whenever the `<sequence>` node is absent, or carries no `name`
attribute, or an empty one, the series field of a successful FB2 record
is the empty string; and the series field never consists of the number
decoration `(№<n>)` alone. -/
theorem c6_series_empty_when_name_blank (path : String) (doc : Fb2Doc)
    (ti : FbTitleInfo) (r : Record) (w : List Write)
    (hti : doc.title_info = some ti)
    (hok : parse_fb2_core path doc = Except.ok (r, w)) :
    ((ti.sequence = none ∨
        ∃ sq, ti.sequence = some sq ∧ (sq.name = none ∨ sq.name = some "")) →
      r.series = "") ∧
    (∀ n : String, r.series ≠ "(№" ++ n ++ ")") := by
  have hs := (parse_fb2_core_ok_fields path doc ti r w hti hok).2.2.1
  constructor
  · intro hcase
    rw [hs]
    rcases hcase with hnone | ⟨sq, hsq, hname⟩
    · rw [hnone]
      rfl
    · rw [hsq]
      unfold seriesField
      dsimp only
      rcases hname with h1 | h1
      · rw [h1]
      · rw [h1]
        dsimp only
        rw [if_pos rfl]
  · intro n hEq
    rw [hs] at hEq
    rcases seriesField_cases ti.sequence with h0 | hh
    · rw [h0] at hEq
      have hd := congrArg String.data hEq
      rw [String.data_append, String.data_append] at hd
      exact List.noConfusion hd
    · have h4 := hh '(' (by rw [hEq]; exact decoration_head n)
      exact Bool.noConfusion h4

/-- C6 witness: the statement instantiated at a document whose sequence
node has an empty `name` attribute and number `3`. -/
theorem c6_witness :
    emptySeqNameRec.series = "" ∧ emptySeqNameRec.series ≠ "(№" ++ "3" ++ ")" :=
  ⟨(c6_series_empty_when_name_blank "s.fb2" emptySeqNameDoc emptySeqNameTI
      emptySeqNameRec [] rfl rfl).1 (Or.inr ⟨_, rfl, Or.inr rfl⟩),
    (c6_series_empty_when_name_blank "s.fb2" emptySeqNameDoc emptySeqNameTI
      emptySeqNameRec [] rfl rfl).2 "3"⟩

/-- C7 (amended): the author field equals the author-node name fragments
joined by `", "` whenever that join is non-empty — in particular always
when there are two or more author nodes — and the placeholder appears
when the join is empty, which happens not only for zero author nodes but
also for a single author node whose name parts are blank. -/
theorem c7_author_field_join (path : String) (doc : Fb2Doc)
    (ti : FbTitleInfo) (r : Record) (w : List Write)
    (hti : doc.title_info = some ti)
    (hok : parse_fb2_core path doc = Except.ok (r, w)) :
    (pyJoin ", " (ti.authors.map authorFragment) ≠ "" →
      r.author = pyJoin ", " (ti.authors.map authorFragment)) ∧
    (ti.authors = [] → r.author = "Неизвестен") ∧
    (2 ≤ ti.authors.length →
      r.author = pyJoin ", " (ti.authors.map authorFragment)) := by
  have ha := (parse_fb2_core_ok_fields path doc ti r w hti hok).2.1
  refine ⟨?_, ?_, ?_⟩
  · intro hne
    rw [ha]
    unfold strOr
    rw [if_neg hne]
  · intro h0
    rw [ha, h0]
    rfl
  · intro h2
    rw [ha]
    rcases hl : ti.authors with _ | ⟨a, _ | ⟨b, t⟩⟩
    · rw [hl] at h2
      simp at h2
    · rw [hl] at h2
      simp at h2
    · have hne : pyJoin ", " (List.map authorFragment (a :: b :: t)) ≠ "" := by
        rw [List.map_cons, List.map_cons]
        exact pyJoin_two_ne_empty ", " (by decide) _ _ _
      unfold strOr
      rw [if_neg hne]

/-- C7 witness: the amended statement instantiated at the two-author
document, where the author field is the two fragments joined. -/
theorem c7_witness :
    twoAuthorRec.author = pyJoin ", " (twoAuthorTI.authors.map authorFragment) ∧
    2 ≤ twoAuthorTI.authors.length :=
  ⟨(c7_author_field_join "t.fb2" twoAuthorDoc twoAuthorTI twoAuthorRec []
      rfl rfl).2.2 (by decide), by decide⟩

/-- C7 counterexample: a document with exactly ONE author node whose name
parts are absent gets the placeholder author `Неизвестен`, not the joined
fragment list (which is the empty string here) — so the placeholder is
not used only when there are zero author nodes. -/
theorem c7_counterexample_single_blank_author :
    singleBlankAuthorTI.authors.length = 1 ∧
    (parse_fb2_metadata "a.fb2" singleBlankAuthorDoc).map
      (fun p => p.1.author) = some "Неизвестен" ∧
    pyJoin ", " (singleBlankAuthorTI.authors.map authorFragment) = "" ∧
    ("Неизвестен" : String) ≠ "" :=
  ⟨rfl, rfl, rfl, by decide⟩

/-- C5 witness: the statement instantiated at a concrete document with
no `title-info` node. -/
theorem c5_witness :
    parse_fb2_core "x.fb2" (Fb2Doc.mk none []) = Except.error "Не найден title-info" ∧
    parse_fb2_metadata "x.fb2" (Fb2Doc.mk none []) = none :=
  c5_missing_title_info_is_failure "x.fb2" (Fb2Doc.mk none []) rfl

/-- C8 (amended): when the FIRST `<binary>` whose id starts with `cover`
carries a corrupt (undecodable) base64 payload, the FB2 parse fails as a
whole — the decode error propagates out of the cover loop and the
wrapper returns `None`, not a record with an absent cover. (The loop
stops at the first matching binary, so corrupt payloads in later
matching binaries are never decoded.) -/
theorem c8_first_corrupt_cover_is_failure (path : String) (doc : Fb2Doc)
    (ti : FbTitleInfo) (b : FbBinary) (payload : String)
    (hti : doc.title_info = some ti)
    (hfind : doc.binaries.find? coverBinMatch = some b)
    (htext : b.text = some payload)
    (hdec : b64decode payload = none) :
    parse_fb2_core path doc = Except.error "binascii.Error" ∧
    parse_fb2_metadata path doc = none := by
  have hcore : parse_fb2_core path doc = Except.error "binascii.Error" := by
    unfold parse_fb2_core
    rw [hti]
    dsimp only
    rw [hfind]
    dsimp only
    rw [htext]
    dsimp only
    rw [hdec]
  refine ⟨hcore, ?_⟩
  unfold parse_fb2_metadata
  rw [hcore]
  rfl

/-- C8 witness: the amended statement instantiated at a document whose
only cover binary has the corrupt payload `!!!A`. -/
theorem c8_witness :
    parse_fb2_core "w.fb2" corruptFirstDoc = Except.error "binascii.Error" ∧
    parse_fb2_metadata "w.fb2" corruptFirstDoc = none :=
  c8_first_corrupt_cover_is_failure "w.fb2" corruptFirstDoc minimalTI
    (FbBinary.mk (some "cover") (some "!!!A")) "!!!A" rfl rfl rfl rfl

/-- C8 counterexample: a document that does contain a cover binary with a
corrupt payload (the second one) nevertheless parses successfully,
because the loop stops at the first matching binary — so the claim as
universally stated is false. -/
theorem c8_counterexample_corrupt_after_good :
    twoCoverDoc.binaries[1]? = some corruptCoverBin ∧
    coverBinMatch corruptCoverBin = true ∧
    corruptCoverBin.text = some "!!!A" ∧
    b64decode "!!!A" = none ∧
    (parse_fb2_metadata "c.fb2" twoCoverDoc).isSome = true :=
  ⟨rfl, rfl, rfl, rfl, rfl⟩

/-- C9: re-running either parser on the same (unchanged) input produces
the same outcome: the same failure, or records equal in every field
except possibly the exact cover location, with byte-identical cover
content written. -/
theorem c9_reparse_deterministic (path : String) (book : EpubBook)
    (doc : Fb2Doc) :
    sameParseOutcome (parse_epub_metadata path book)
      (parse_epub_metadata path book) ∧
    sameParseOutcome (parse_fb2_metadata path doc)
      (parse_fb2_metadata path doc) := by
  constructor
  · cases hp : parse_epub_metadata path book with
    | none => simp [sameParseOutcome]
    | some p =>
      obtain ⟨r, w⟩ := p
      simp [sameParseOutcome]
  · cases hp : parse_fb2_metadata path doc with
    | none => simp [sameParseOutcome]
    | some p =>
      obtain ⟨r, w⟩ := p
      simp [sameParseOutcome]

/-- C10: a path whose lowercased name ends in none of `.zip`, `.epub`,
`.fb2` takes the fall-through branch of `process_file`: the result is
the empty list whatever is on the filesystem, and neither parser is
reached. -/
theorem c10_unsupported_extension_empty (path : String)
    (h1 : pyEndsWith (pyLower path) ".zip" = false)
    (h2 : pyEndsWith (pyLower path) ".epub" = false)
    (h3 : pyEndsWith (pyLower path) ".fb2" = false) :
    dispatch path = Dispatch.unsupported ∧
    ∀ fs, process_file path fs = [] := by
  have hd : dispatch path = Dispatch.unsupported := by
    unfold dispatch
    rw [h1, h2, h3]
    rfl
  refine ⟨hd, fun fs => ?_⟩
  unfold process_file
  rw [hd]

/-- C10 witness: the statement instantiated at `books/notes.txt` and the
empty filesystem. -/
theorem c10_witness :
    dispatch "books/notes.txt" = Dispatch.unsupported ∧
    process_file "books/notes.txt" emptyFs = [] :=
  ⟨(c10_unsupported_extension_empty "books/notes.txt" rfl rfl rfl).1,
    (c10_unsupported_extension_empty "books/notes.txt" rfl rfl rfl).2 emptyFs⟩

end BookShelf
